import Mathlib

/-!
Shallow embedding of `cpp/src/hdbscan/detail/reachability.cuh` (HDBSCAN
mutual-reachability graph construction) and proofs about it.

Conventions of the embedding:
* `value_t` (the floating-point distance type) is modelled as `ℚ`; the value
  `std::numeric_limits<value_t>::max()` is threaded through as an explicit
  parameter `vmax`, since `value_t` is a C++ template parameter.
* `value_idx` (the working integer index type, 32-bit in the instantiations
  used by the caller) is modelled as `Int`, with the int64 → int32 narrowing
  conversion made explicit as wrap-around on 2^32.
* Device arrays written by external primitives are modelled as Lean lists;
  a raw device pointer that is only read through arbitrary offsets
  (`knn_dists` in `core_distances`) is modelled as a total function
  `Int → ℚ`.
* The external capability interfaces (the brute-force KNN search from
  `cuml/neighbors`, raft's `symmetrize` and `sorted_coo_to_csr`, and the
  `mutual_reachability_knn_l2` transform) are parameters of the embedded
  pipelines: the theorems quantify over their behaviour.
* Functions that can fail (RAFT_EXPECTS / ASSERT throw) return `Except`.
-/

namespace Reachability

/-- Distance metrics, modelling `raft::distance::DistanceType` (only the
constructors relevant to this file). -/
inductive DistanceType
  | L2SqrtExpanded
  | L2Expanded
  | L1
  | CosineExpanded
  deriving DecidableEq

/-- Errors raised by this file's functions: `RAFT_EXPECTS` on an unsupported
metric, and `ASSERT` on an invalid `min_samples`/`n_neighbors` configuration. -/
inductive RaftError
  | unsupportedMetric
  | invalidConfiguration
  deriving DecidableEq

/-- CUDA runtime status codes, modelling `cudaError_t` (only constructors
relevant here: success plus representative failures). -/
inductive CudaError
  | cudaSuccess
  | cudaErrorMemoryAllocation
  | cudaErrorInvalidValue
  deriving DecidableEq

/-- Observable outcome of the error-checking helpers `check` / `checkLast`:
whether a diagnostic is printed to `std::cerr`, and whether the call aborts
(exits the process or propagates an error). -/
structure CheckOutcome where
  loggedToStderr : Bool
  aborts : Bool
  deriving DecidableEq

/-- Model of `check` (reachability.cuh lines 43-55): on a non-success code it
prints a diagnostic to `std::cerr` and returns normally; the `std::exit`
call is commented out in the source, so the outcome never aborts. -/
def check (err : CudaError) : CheckOutcome :=
  { loggedToStderr := match err with
      | .cudaSuccess => false
      | _ => true
    aborts := false }

/-- Model of `checkLast` (reachability.cuh lines 58-69): same behaviour as
`check` applied to `cudaGetLastError()`. -/
def checkLast (lastError : CudaError) : CheckOutcome :=
  { loggedToStderr := match lastError with
      | .cudaSuccess => false
      | _ => true
    aborts := false }

/-- Model of the implicit C++ conversion `int64_t → int32_t` performed by the
lambda `[] __device__(int64_t in) -> value_idx { return in; }`
(reachability.cuh lines 161-167 and 364-369): two's-complement wrap-around
into the 32-bit range. -/
def narrow_int64_to_int32 (x : Int) : Int :=
  (x + 2 ^ 31) % 2 ^ 32 - 2 ^ 31

/-- The `thrust::transform` that narrows the whole int64 index buffer into
the `value_idx` output buffer `inds`. -/
def narrow_indices (inds64 : List Int) : List Int :=
  inds64.map narrow_int64_to_int32

/-- Model of `core_distances` (reachability.cuh lines 90-106).
`knn_dists` is the device pointer (modelled as a total function on offsets),
and the result is the output array `out` of size `n`, with
`out[row] = knn_dists[row * n_neighbors + (min_samples - 1)]`.
The `ASSERT(n_neighbors >= min_samples, ...)` becomes the `Except` error. -/
def core_distances (knn_dists : Int → ℚ) (min_samples n_neighbors : Int)
    (n : Nat) : Except RaftError (List ℚ) :=
  if min_samples ≤ n_neighbors then
    .ok ((List.range n).map fun (row : Nat) =>
      knn_dists ((row : Int) * n_neighbors + (min_samples - 1)))
  else
    .error .invalidConfiguration

/-- Model of `compute_knn` (reachability.cuh lines 123-167). The external
`brute_force_knn` primitive is the parameter `bfknn`, mapping the
neighborhood size `k` to the pair (int64 index buffer, distance buffer);
`compute_knn` then narrows the indices to `value_idx` width. -/
def compute_knn (bfknn : Int → List Int × List ℚ) (k : Int) :
    List Int × List ℚ :=
  (narrow_indices (bfknn k).1, (bfknn k).2)

/-- Model of `compute_knn_GF` (reachability.cuh lines 170-370) as seen from
its caller: the multi-device fan-out produces a merged int64 index buffer
and distance buffer (parameter `knnGF`), and the function narrows the
indices to `value_idx` width at the end (lines 364-369). -/
def compute_knn_GF (knnGF : Int → List Int × List ℚ) (k : Int) :
    List Int × List ℚ :=
  (narrow_indices (knnGF k).1, (knnGF k).2)

/-- Work partition of `compute_knn_GF` (reachability.cuh line 304): the
number of query rows assigned to device `i` out of `num_devices`. -/
def num_search_items_me (n_search_items num_devices i : Nat) : Nat :=
  if i = num_devices - 1 then
    n_search_items / num_devices + n_search_items % num_devices
  else
    n_search_items / num_devices

/-- Work partition of `compute_knn_GF` (reachability.cuh line 305): the
starting query row of device `i`'s chunk. -/
def start_pos_idx (n_search_items num_devices i : Nat) : Nat :=
  (n_search_items / num_devices) * i

/-- Sparse coordinate graph: `raft::sparse::COO` with parallel `rows`,
`cols`, `vals` arrays. -/
structure COO where
  rows : List Int
  cols : List Int
  vals : List ℚ
  deriving DecidableEq

/-- The `thrust::transform` over a counting iterator that fills `coo_rows`
with `c / min_samples` (reachability.cuh lines 451-456 and 533-538). -/
def mrg_coo_rows (m : Nat) (min_samples : Int) : List Int :=
  (List.range (m * min_samples.toNat)).map fun c => (c : Int) / min_samples

/-- The final self-loop pass (reachability.cuh lines 464-475 and 546-557):
a `thrust::transform` over the zip of `rows`, `cols`, `vals` writing back
into `vals`, replacing the value of every edge with `rows[e] == cols[e]` by
`std::numeric_limits<value_t>::max()` (the parameter `vmax`). -/
def selfLoopPass (vmax : ℚ) : List Int → List Int → List ℚ → List ℚ
  | r :: rs, c :: cs, v :: vs =>
      (if r = c then vmax else v) :: selfLoopPass vmax rs cs vs
  | _, _, _ => []

/-- Core-distance extraction step of `mutual_reachability_graph`
(reachability.cuh line 442): `core_distances` applied to the KNN distance
buffer with both `min_samples` and `n_neighbors` equal to `min_samples`. -/
def mrg_core (bfknn : Int → List Int × List ℚ) (min_samples : Int)
    (m : Nat) : Except RaftError (List ℚ) :=
  core_distances (fun i => (compute_knn bfknn min_samples).2.getD i.toNat 0)
    min_samples min_samples m

/-- Graph produced by `mutual_reachability_graph` just before the final
self-loop pass: the raft `symmetrize` of the COO rows, the narrowed KNN
indices, and the distances rewritten by `mutual_reachability_knn_l2`. -/
def mrg_pre (bfknn : Int → List Int × List ℚ)
    (mr_knn_l2 : List Int → List ℚ → List ℚ → ℚ → List ℚ)
    (symmetrize : List Int → List Int → List ℚ → COO)
    (m : Nat) (min_samples : Int) (alpha : ℚ) : COO :=
  match mrg_core bfknn min_samples m with
  | .error _ => ⟨[], [], []⟩
  | .ok core_dists =>
      symmetrize (mrg_coo_rows m min_samples)
        (compute_knn bfknn min_samples).1
        (mr_knn_l2 (compute_knn bfknn min_samples).1
          (compute_knn bfknn min_samples).2 core_dists (1 / alpha))

/-- Model of `mutual_reachability_graph` (reachability.cuh lines 416-476).
External primitives are parameters: `bfknn` (brute-force KNN), `mr_knn_l2`
(the in-place mutual-reachability rewrite `mutual_reachability_knn_l2`),
`symmetrize` (raft symmetrization) and `sorted_coo_to_csr` (raft CSR
conversion, fed `out.rows` and `m + 1`). Returns `(indptr, core_dists, out)`
or the error thrown by `RAFT_EXPECTS` / `ASSERT`. -/
def mutual_reachability_graph (bfknn : Int → List Int × List ℚ)
    (mr_knn_l2 : List Int → List ℚ → List ℚ → ℚ → List ℚ)
    (symmetrize : List Int → List Int → List ℚ → COO)
    (sorted_coo_to_csr : List Int → Nat → List Int)
    (vmax : ℚ) (metric : DistanceType) (m : Nat) (min_samples : Int)
    (alpha : ℚ) : Except RaftError (List Int × List ℚ × COO) :=
  if metric = DistanceType.L2SqrtExpanded then
    match mrg_core bfknn min_samples m with
    | .error e => .error e
    | .ok core_dists =>
        let out := mrg_pre bfknn mr_knn_l2 symmetrize m min_samples alpha
        let indptr := sorted_coo_to_csr out.rows (m + 1)
        .ok (indptr, core_dists,
          ⟨out.rows, out.cols, selfLoopPass vmax out.rows out.cols out.vals⟩)
  else
    .error .unsupportedMetric

/-- Trace of the neighborhood sizes used by `mutual_reachability_graph_GF`:
the `k` passed to `compute_knn_GF` (line 507) and the `min_samples` and
`n_neighbors` arguments passed to `core_distances` (line 524), recorded
from the same local variables the source passes at those call sites. -/
structure GFTrace where
  knn_k : Int
  core_min_samples : Int
  core_n_neighbors : Int
  deriving DecidableEq

/-- Core-distance extraction step of `mutual_reachability_graph_GF`
(reachability.cuh line 524): `core_distances(dists, min_samples, 64, m)`
where the local `min_samples` has been reassigned to 64 (line 498). -/
def mrg_core_GF (knnGF : Int → List Int × List ℚ) (m : Nat) :
    Except RaftError (List ℚ) :=
  core_distances (fun i => (compute_knn_GF knnGF 64).2.getD i.toNat 0)
    64 64 m

/-- Graph produced by `mutual_reachability_graph_GF` just before the final
self-loop pass: the `mutual_reachability_knn_l2` call is commented out in
the source (lines 526-530), so `symmetrize` is applied to the raw KNN
distances. -/
def mrg_pre_GF (knnGF : Int → List Int × List ℚ)
    (symmetrize : List Int → List Int → List ℚ → COO) (m : Nat) : COO :=
  symmetrize (mrg_coo_rows m 64) (compute_knn_GF knnGF 64).1
    (compute_knn_GF knnGF 64).2

/-- Model of the experimental two-point-set variant
`mutual_reachability_graph_GF` (reachability.cuh lines 479-558). After the
metric check, the source reassigns `min_samples = 64` (line 498); the
caller-supplied `min_samples` is never read again. The result carries a
`GFTrace` recording the neighborhood sizes actually passed to the KNN
search and to `core_distances`. -/
def mutual_reachability_graph_GF (knnGF : Int → List Int × List ℚ)
    (symmetrize : List Int → List Int → List ℚ → COO)
    (sorted_coo_to_csr : List Int → Nat → List Int)
    (vmax : ℚ) (metric : DistanceType) (m : Nat) (min_samples : Int)
    (alpha : ℚ) :
    Except RaftError (GFTrace × List Int × List ℚ × COO) :=
  if metric = DistanceType.L2SqrtExpanded then
    let min_samples : Int := 64
    match mrg_core_GF knnGF m with
    | .error e => .error e
    | .ok core_dists =>
        let out := mrg_pre_GF knnGF symmetrize m
        let indptr := sorted_coo_to_csr out.rows (m + 1)
        .ok (⟨min_samples, min_samples, 64⟩, indptr, core_dists,
          ⟨out.rows, out.cols, selfLoopPass vmax out.rows out.cols out.vals⟩)
  else
    .error .unsupportedMetric

/-! ### Helper lemmas shared by the claim theorems -/

/-- `mrg_core` never fails: both `core_distances` arguments are `min_samples`,
so the `ASSERT` guard `min_samples ≤ n_neighbors` holds reflexively. -/
theorem mrg_core_isOk (bfknn : Int → List Int × List ℚ) (min_samples : Int)
    (m : Nat) :
    mrg_core bfknn min_samples m = .ok ((List.range m).map fun (row : Nat) =>
      (compute_knn bfknn min_samples).2.getD
        (((row : Int) * min_samples + (min_samples - 1)).toNat) 0) := by
  unfold mrg_core core_distances
  rw [if_pos (le_refl min_samples)]

/-- `mrg_core_GF` never fails: it passes `64` for both arguments. -/
theorem mrg_core_GF_isOk (knnGF : Int → List Int × List ℚ) (m : Nat) :
    mrg_core_GF knnGF m = .ok ((List.range m).map fun (row : Nat) =>
      (compute_knn_GF knnGF 64).2.getD
        (((row : Int) * 64 + (64 - 1)).toNat) 0) := by
  unfold mrg_core_GF core_distances
  rw [if_pos (by norm_num)]

/-- Closed form of `mutual_reachability_graph` on the supported metric. -/
theorem mutual_reachability_graph_eq_ok (bfknn : Int → List Int × List ℚ)
    (mr_knn_l2 : List Int → List ℚ → List ℚ → ℚ → List ℚ)
    (symmetrize : List Int → List Int → List ℚ → COO)
    (sorted_coo_to_csr : List Int → Nat → List Int)
    (vmax : ℚ) (m : Nat) (min_samples : Int) (alpha : ℚ) :
    mutual_reachability_graph bfknn mr_knn_l2 symmetrize sorted_coo_to_csr
        vmax DistanceType.L2SqrtExpanded m min_samples alpha =
      .ok (sorted_coo_to_csr
            (mrg_pre bfknn mr_knn_l2 symmetrize m min_samples alpha).rows
            (m + 1),
          (List.range m).map (fun (row : Nat) =>
            (compute_knn bfknn min_samples).2.getD
              (((row : Int) * min_samples + (min_samples - 1)).toNat) 0),
          ⟨(mrg_pre bfknn mr_knn_l2 symmetrize m min_samples alpha).rows,
           (mrg_pre bfknn mr_knn_l2 symmetrize m min_samples alpha).cols,
           selfLoopPass vmax
             (mrg_pre bfknn mr_knn_l2 symmetrize m min_samples alpha).rows
             (mrg_pre bfknn mr_knn_l2 symmetrize m min_samples alpha).cols
             (mrg_pre bfknn mr_knn_l2 symmetrize m min_samples alpha).vals⟩) := by
  unfold mutual_reachability_graph
  rw [if_pos rfl, mrg_core_isOk]

/-- Closed form of `mutual_reachability_graph_GF` on the supported metric. -/
theorem mutual_reachability_graph_GF_eq_ok (knnGF : Int → List Int × List ℚ)
    (symmetrize : List Int → List Int → List ℚ → COO)
    (sorted_coo_to_csr : List Int → Nat → List Int)
    (vmax : ℚ) (m : Nat) (min_samples : Int) (alpha : ℚ) :
    mutual_reachability_graph_GF knnGF symmetrize sorted_coo_to_csr
        vmax DistanceType.L2SqrtExpanded m min_samples alpha =
      .ok (⟨64, 64, 64⟩,
          sorted_coo_to_csr (mrg_pre_GF knnGF symmetrize m).rows (m + 1),
          (List.range m).map (fun (row : Nat) =>
            (compute_knn_GF knnGF 64).2.getD
              (((row : Int) * 64 + (64 - 1)).toNat) 0),
          ⟨(mrg_pre_GF knnGF symmetrize m).rows,
           (mrg_pre_GF knnGF symmetrize m).cols,
           selfLoopPass vmax (mrg_pre_GF knnGF symmetrize m).rows
             (mrg_pre_GF knnGF symmetrize m).cols
             (mrg_pre_GF knnGF symmetrize m).vals⟩) := by
  unfold mutual_reachability_graph_GF
  rw [if_pos rfl, mrg_core_GF_isOk]

/-- Pointwise description of the self-loop pass on three aligned arrays. -/
theorem selfLoopPass_getD (vmax : ℚ) (rows : List Int) :
    ∀ (cols : List Int) (vals : List ℚ) (e : Nat),
      rows.length = cols.length → cols.length = vals.length →
      e < rows.length →
      (selfLoopPass vmax rows cols vals).getD e 0 =
        if rows.getD e 0 = cols.getD e 0 then vmax else vals.getD e 0 := by
  induction rows with
  | nil => intro cols vals e h1 h2 he; simp at he
  | cons r rs ih =>
    intro cols vals e h1 h2 he
    match cols, vals with
    | [], _ => simp at h1
    | c :: cs, [] => simp at h2
    | c :: cs, v :: vs =>
      match e with
      | 0 => simp [selfLoopPass]
      | e + 1 =>
        simp only [selfLoopPass, List.getD_cons_succ]
        exact ih cs vs e (by simpa using h1) (by simpa using h2)
          (by simpa using he)

/-! ### Concrete instantiations of the external primitives, used by the
witness theorems -/

/-- Trivial KNN search instance: one query row with one neighbor at
distance 1. -/
def bfknn0 : Int → List Int × List ℚ := fun _ => ([0], [1])

/-- Trivial KNN search instance returning empty buffers. -/
def bfknnEmpty : Int → List Int × List ℚ := fun _ => ([], [])

/-- Identity mutual-reachability rewrite instance. -/
def mrl20 : List Int → List ℚ → List ℚ → ℚ → List ℚ := fun _ d _ _ => d

/-- Trivial symmetrization instance: returns its inputs as a COO triple. -/
def sym0 : List Int → List Int → List ℚ → COO := fun r c v => ⟨r, c, v⟩

/-- Trivial CSR-conversion instance. -/
def csr0 : List Int → Nat → List Int := fun _ _ => []

/-! ### Claim theorems -/

/-- C1: for every call to `core_distances` with `n_neighbors ≥ min_samples`,
the call succeeds and the output array has size `n` with
`out[i] = knn_dists[i * n_neighbors + (min_samples - 1)]` for every point
`i < n`; the function is pure apart from the returned output array. -/
theorem c1_core_distances_extracts_column (knn_dists : Int → ℚ)
    (min_samples n_neighbors : Int) (n : Nat)
    (h : min_samples ≤ n_neighbors) :
    ∃ out, core_distances knn_dists min_samples n_neighbors n = .ok out ∧
      out.length = n ∧
      ∀ i, i < n → out.getD i 0 =
        knn_dists ((i : Int) * n_neighbors + (min_samples - 1)) := by
  refine ⟨(List.range n).map fun (row : Nat) =>
      knn_dists ((row : Int) * n_neighbors + (min_samples - 1)),
    ?_, by rw [List.length_map, List.length_range], ?_⟩
  · unfold core_distances
    rw [if_pos h]
  · intro i hi
    rw [List.getD_eq_getElem?_getD, List.getElem?_map,
      List.getElem?_range hi]
    rfl

/-- Witness for C1 at a concrete input. -/
theorem c1_witness :
    (2 : Int) ≤ 3 ∧
    ∃ out, core_distances (fun i => (i : ℚ)) 2 3 2 = .ok out ∧
      out.length = 2 ∧
      ∀ i, i < 2 → out.getD i 0 = ((i : Int) * 3 + 1 : Int) :=
  ⟨by decide, c1_core_distances_extracts_column (fun i => (i : ℚ)) 2 3 2
    (by decide)⟩

/-- C4: for every call to `core_distances` with `n_neighbors < min_samples`,
the call fails with the invalid-configuration error and no output is
produced. -/
theorem c4_core_distances_invalid_config (knn_dists : Int → ℚ)
    (min_samples n_neighbors : Int) (n : Nat)
    (h : n_neighbors < min_samples) :
    core_distances knn_dists min_samples n_neighbors n =
      .error .invalidConfiguration := by
  unfold core_distances
  rw [if_neg (by omega)]

/-- Witness for C4 at a concrete input. -/
theorem c4_witness :
    (2 : Int) < 3 ∧
    core_distances (fun _ => 0) 3 2 5 = .error .invalidConfiguration :=
  ⟨by decide, c4_core_distances_invalid_config (fun _ => 0) 3 2 5 (by decide)⟩

/-- C6: the error-checking helpers of the multi-device path never abort:
`check` and `checkLast` print a diagnostic on a non-success code (the
`std::exit` is commented out) and the call continues, so a device failure
is never surfaced to the caller as an error. This refutes the claim that a
sub-search failure aborts the whole call. -/
theorem c6_check_never_aborts :
    (∀ err, (check err).aborts = false ∧ (checkLast err).aborts = false) ∧
    (check .cudaErrorMemoryAllocation).loggedToStderr = true ∧
    (checkLast .cudaErrorMemoryAllocation).loggedToStderr = true := by
  exact ⟨fun err => ⟨rfl, rfl⟩, rfl, rfl⟩

/-- C8: the int64 → int32 narrowing applied to KNN indices is lossless on
every value representable in the 32-bit working index type, and hence the
narrowed index buffer equals the original whenever all entries are in
range. -/
theorem c8_narrowing_lossless :
    (∀ x : Int, -(2 ^ 31) ≤ x → x < 2 ^ 31 → narrow_int64_to_int32 x = x) ∧
    (∀ inds64 : List Int,
      (∀ x ∈ inds64, -(2 ^ 31) ≤ x ∧ x < 2 ^ 31) →
      narrow_indices inds64 = inds64) := by
  have base : ∀ x : Int, -(2 ^ 31) ≤ x → x < 2 ^ 31 →
      narrow_int64_to_int32 x = x := by
    intro x h1 h2
    unfold narrow_int64_to_int32
    have hlo : 0 ≤ x + 2 ^ 31 := by omega
    have hhi : x + 2 ^ 31 < 2 ^ 32 := by omega
    rw [Int.emod_eq_of_lt hlo hhi]
    omega
  refine ⟨base, ?_⟩
  intro inds64 hmem
  unfold narrow_indices
  induction inds64 with
  | nil => rfl
  | cons a t ih =>
    have ha := hmem a (by simp)
    simp only [List.map_cons, base a ha.1 ha.2, List.cons.injEq, true_and]
    exact ih (fun x hx => hmem x (by simp [hx]))

/-- Witness for C8 at a concrete input. -/
theorem c8_witness :
    (-(2 ^ 31) ≤ (12345 : Int) ∧ (12345 : Int) < 2 ^ 31 ∧
      narrow_int64_to_int32 12345 = 12345) ∧
    narrow_indices [0, 12345, -7] = [0, 12345, -7] :=
  ⟨⟨by decide, by decide,
    c8_narrowing_lossless.1 12345 (by decide) (by decide)⟩,
   c8_narrowing_lossless.2 [0, 12345, -7] (by decide)⟩

/-- C10: `mutual_reachability_graph` always calls `core_distances` with
`n_neighbors = min_samples`, so the `ASSERT` precondition holds reflexively
on every call that passes the metric check: the core-distance step never
fails and the function can never return the invalid-configuration error. -/
theorem c10_invalid_config_unreachable :
    (∀ (bfknn : Int → List Int × List ℚ) (min_samples : Int) (m : Nat),
      ∃ cd, mrg_core bfknn min_samples m = .ok cd) ∧
    (∀ (bfknn : Int → List Int × List ℚ)
      (mr_knn_l2 : List Int → List ℚ → List ℚ → ℚ → List ℚ)
      (symmetrize : List Int → List Int → List ℚ → COO)
      (sorted_coo_to_csr : List Int → Nat → List Int)
      (vmax : ℚ) (metric : DistanceType) (m : Nat) (min_samples : Int)
      (alpha : ℚ),
      mutual_reachability_graph bfknn mr_knn_l2 symmetrize sorted_coo_to_csr
          vmax metric m min_samples alpha ≠
        .error .invalidConfiguration) := by
  refine ⟨fun bfknn ms m => ⟨_, mrg_core_isOk bfknn ms m⟩, ?_⟩
  intro bfknn mrl2 sym csr vmax metric m ms alpha
  by_cases hm : metric = DistanceType.L2SqrtExpanded
  · subst hm
    rw [mutual_reachability_graph_eq_ok]
    simp
  · unfold mutual_reachability_graph
    rw [if_neg hm]
    simp

/-- C3: both `mutual_reachability_graph` and `mutual_reachability_graph_GF`
check the metric first: with any metric other than `L2SqrtExpanded` they
fail with the unsupported-metric error before any other step runs, and no
output is produced. -/
theorem c3_unsupported_metric_fails_fast (bfknn : Int → List Int × List ℚ)
    (mr_knn_l2 : List Int → List ℚ → List ℚ → ℚ → List ℚ)
    (symmetrize : List Int → List Int → List ℚ → COO)
    (sorted_coo_to_csr : List Int → Nat → List Int)
    (vmax : ℚ) (metric : DistanceType) (m : Nat) (min_samples : Int)
    (alpha : ℚ) (h : metric ≠ DistanceType.L2SqrtExpanded) :
    mutual_reachability_graph bfknn mr_knn_l2 symmetrize sorted_coo_to_csr
        vmax metric m min_samples alpha = .error .unsupportedMetric ∧
    mutual_reachability_graph_GF bfknn symmetrize sorted_coo_to_csr
        vmax metric m min_samples alpha = .error .unsupportedMetric := by
  constructor
  · unfold mutual_reachability_graph
    rw [if_neg h]
  · unfold mutual_reachability_graph_GF
    rw [if_neg h]

/-- Witness for C3 at a concrete input. -/
theorem c3_witness :
    DistanceType.L1 ≠ DistanceType.L2SqrtExpanded ∧
    (mutual_reachability_graph bfknn0 mrl20 sym0 csr0 10
        DistanceType.L1 1 1 1 = .error .unsupportedMetric ∧
      mutual_reachability_graph_GF bfknn0 sym0 csr0 10
        DistanceType.L1 1 1 1 = .error .unsupportedMetric) :=
  ⟨by decide, c3_unsupported_metric_fails_fast bfknn0 mrl20 sym0 csr0 10
    DistanceType.L1 1 1 1 (by decide)⟩

/-- C5: the multi-device partition of `compute_knn_GF` assigns device `i`
the contiguous chunk starting at `i * (n / num_devices)`, of size
`n / num_devices` for every device but the last, which also gets the
remainder; the chunks are pairwise disjoint and cover all `n` rows. -/
theorem c5_partition_disjoint_cover (n d : Nat) (hd : 1 ≤ d) :
    (∀ i, i < d → start_pos_idx n d i = i * (n / d)) ∧
    (∀ i, i < d → i ≠ d - 1 → num_search_items_me n d i = n / d) ∧
    num_search_items_me n d (d - 1) = n / d + n % d ∧
    (∀ i j, i < d → j < d → i < j →
      start_pos_idx n d i + num_search_items_me n d i ≤
        start_pos_idx n d j) ∧
    (∀ x, x < n → ∃ i, i < d ∧ start_pos_idx n d i ≤ x ∧
      x < start_pos_idx n d i + num_search_items_me n d i) := by
  refine ⟨?_, ?_, ?_, ?_, ?_⟩
  · intro i hi
    unfold start_pos_idx
    exact Nat.mul_comm _ _
  · intro i hi hne
    unfold num_search_items_me
    rw [if_neg hne]
  · unfold num_search_items_me
    rw [if_pos rfl]
  · intro i j hi hj hij
    have hine : i ≠ d - 1 := by omega
    unfold start_pos_idx num_search_items_me
    rw [if_neg hine]
    calc n / d * i + n / d = n / d * (i + 1) := by ring
      _ ≤ n / d * j := Nat.mul_le_mul_left _ (by omega)
  · intro x hx
    have hmod := Nat.div_add_mod n d
    by_cases hq : n / d = 0
    · refine ⟨d - 1, by omega, ?_, ?_⟩
      · unfold start_pos_idx
        rw [hq]
        simp
      · unfold start_pos_idx num_search_items_me
        rw [if_pos rfl, hq]
        rw [hq] at hmod
        omega
    · have hq1 : 0 < n / d := Nat.pos_of_ne_zero hq
      by_cases hc : x / (n / d) < d - 1
      · refine ⟨x / (n / d), by omega, ?_, ?_⟩
        · unfold start_pos_idx
          rw [Nat.mul_comm]
          exact Nat.div_mul_le_self x (n / d)
        · unfold start_pos_idx num_search_items_me
          rw [if_neg (by omega)]
          have hlt : x < (x / (n / d) + 1) * (n / d) :=
            (Nat.div_lt_iff_lt_mul hq1).mp (Nat.lt_succ_self _)
          calc x < (x / (n / d) + 1) * (n / d) := hlt
            _ = n / d * (x / (n / d)) + n / d := by ring
      · refine ⟨d - 1, by omega, ?_, ?_⟩
        · unfold start_pos_idx
          rw [Nat.mul_comm]
          exact (Nat.le_div_iff_mul_le hq1).mp (by omega)
        · unfold start_pos_idx num_search_items_me
          rw [if_pos rfl]
          have hsum : n / d * (d - 1) + (n / d + n % d) = n := by
            have hd1 : d - 1 + 1 = d := by omega
            calc n / d * (d - 1) + (n / d + n % d)
                = n / d * (d - 1 + 1) + n % d := by ring
              _ = n / d * d + n % d := by rw [hd1]
              _ = d * (n / d) + n % d := by rw [Nat.mul_comm]
              _ = n := hmod
          omega

/-- Witness for C5 at a concrete input. -/
theorem c5_witness :
    1 ≤ 3 ∧
    ((∀ i, i < 3 → start_pos_idx 10 3 i = i * (10 / 3)) ∧
      (∀ i, i < 3 → i ≠ 3 - 1 → num_search_items_me 10 3 i = 10 / 3) ∧
      num_search_items_me 10 3 (3 - 1) = 10 / 3 + 10 % 3 ∧
      (∀ i j, i < 3 → j < 3 → i < j →
        start_pos_idx 10 3 i + num_search_items_me 10 3 i ≤
          start_pos_idx 10 3 j) ∧
      (∀ x, x < 10 → ∃ i, i < 3 ∧ start_pos_idx 10 3 i ≤ x ∧
        x < start_pos_idx 10 3 i + num_search_items_me 10 3 i)) :=
  ⟨by decide, c5_partition_disjoint_cover 10 3 (by decide)⟩

/-- C7: `mutual_reachability_graph_GF` reassigns `min_samples = 64` before
any use: on every successful call the neighborhood size passed to the KNN
search is 64, those passed to `core_distances` are 64, the core-distance
call receives the same neighborhood size as the KNN call, and the result is
the same for every caller-supplied `min_samples`. -/
theorem c7_GF_hardcodes_min_samples_64 (knnGF : Int → List Int × List ℚ)
    (symmetrize : List Int → List Int → List ℚ → COO)
    (sorted_coo_to_csr : List Int → Nat → List Int)
    (vmax : ℚ) (metric : DistanceType) (m : Nat)
    (min_samples other_min_samples : Int) (alpha : ℚ) (tr : GFTrace)
    (rest : List Int × List ℚ × COO)
    (h : mutual_reachability_graph_GF knnGF symmetrize sorted_coo_to_csr
      vmax metric m min_samples alpha = .ok (tr, rest)) :
    tr.knn_k = 64 ∧ tr.core_min_samples = tr.knn_k ∧
    tr.core_n_neighbors = tr.knn_k ∧
    mutual_reachability_graph_GF knnGF symmetrize sorted_coo_to_csr
      vmax metric m other_min_samples alpha = .ok (tr, rest) := by
  by_cases hm : metric = DistanceType.L2SqrtExpanded
  · subst hm
    rw [mutual_reachability_graph_GF_eq_ok] at h
    have htr : tr = ⟨64, 64, 64⟩ := by
      simp only [Except.ok.injEq, Prod.mk.injEq] at h
      exact h.1.symm
    subst htr
    rw [mutual_reachability_graph_GF_eq_ok]
    exact ⟨rfl, rfl, rfl, h⟩
  · unfold mutual_reachability_graph_GF at h
    rw [if_neg hm] at h
    exact absurd h (by simp)

/-- Witness for C7 at a concrete input. -/
theorem c7_witness :
    mutual_reachability_graph_GF bfknnEmpty sym0 csr0 10
        DistanceType.L2SqrtExpanded 0 5 1 =
      .ok (⟨64, 64, 64⟩, [], [], ⟨[], [], []⟩) ∧
    ((⟨64, 64, 64⟩ : GFTrace).knn_k = 64 ∧
      (⟨64, 64, 64⟩ : GFTrace).core_min_samples =
        (⟨64, 64, 64⟩ : GFTrace).knn_k ∧
      (⟨64, 64, 64⟩ : GFTrace).core_n_neighbors =
        (⟨64, 64, 64⟩ : GFTrace).knn_k ∧
      mutual_reachability_graph_GF bfknnEmpty sym0 csr0 10
          DistanceType.L2SqrtExpanded 0 7 1 =
        .ok (⟨64, 64, 64⟩, [], [], ⟨[], [], []⟩)) :=
  ⟨by rfl, c7_GF_hardcodes_min_samples_64 bfknnEmpty sym0 csr0 10
    DistanceType.L2SqrtExpanded 0 5 7 1 ⟨64, 64, 64⟩
    ([], [], ⟨[], [], []⟩) (by rfl)⟩

/-- C9: `mutual_reachability_graph_GF` applies neither the
mutual-reachability transform nor the `1/alpha` scaling: its output on any
two values of `alpha` is identical (core-distance vector included), its
graph before the self-loop pass is the symmetrization of the raw KNN
distances (`mrg_pre_GF` feeds `symmetrize` the untransformed distance
buffer), and every non-self-loop edge keeps that symmetrized raw value. -/
theorem c9_GF_raw_distances_alpha_unused (knnGF : Int → List Int × List ℚ)
    (symmetrize : List Int → List Int → List ℚ → COO)
    (sorted_coo_to_csr : List Int → Nat → List Int)
    (vmax : ℚ) (metric : DistanceType) (m : Nat) (min_samples : Int)
    (alpha alpha' : ℚ) (tr : GFTrace) (ip : List Int) (cd : List ℚ)
    (g : COO)
    (h : mutual_reachability_graph_GF knnGF symmetrize sorted_coo_to_csr
      vmax metric m min_samples alpha = .ok (tr, ip, cd, g))
    (h1 : (mrg_pre_GF knnGF symmetrize m).rows.length =
      (mrg_pre_GF knnGF symmetrize m).cols.length)
    (h2 : (mrg_pre_GF knnGF symmetrize m).cols.length =
      (mrg_pre_GF knnGF symmetrize m).vals.length) :
    mutual_reachability_graph_GF knnGF symmetrize sorted_coo_to_csr
      vmax metric m min_samples alpha' = .ok (tr, ip, cd, g) ∧
    g.rows = (mrg_pre_GF knnGF symmetrize m).rows ∧
    g.cols = (mrg_pre_GF knnGF symmetrize m).cols ∧
    (∀ e, e < g.rows.length →
      g.rows.getD e 0 ≠ g.cols.getD e 0 →
      g.vals.getD e 0 = (mrg_pre_GF knnGF symmetrize m).vals.getD e 0) := by
  by_cases hm : metric = DistanceType.L2SqrtExpanded
  · subst hm
    rw [mutual_reachability_graph_GF_eq_ok] at h
    have hg : g = ⟨(mrg_pre_GF knnGF symmetrize m).rows,
        (mrg_pre_GF knnGF symmetrize m).cols,
        selfLoopPass vmax (mrg_pre_GF knnGF symmetrize m).rows
          (mrg_pre_GF knnGF symmetrize m).cols
          (mrg_pre_GF knnGF symmetrize m).vals⟩ := by
      simp only [Except.ok.injEq, Prod.mk.injEq] at h
      exact h.2.2.2.symm
    refine ⟨by rw [mutual_reachability_graph_GF_eq_ok]; exact h, ?_, ?_, ?_⟩
    · rw [hg]
    · rw [hg]
    · intro e he hne
      rw [hg] at he hne ⊢
      rw [selfLoopPass_getD vmax _ _ _ e h1 h2 he, if_neg hne]
  · unfold mutual_reachability_graph_GF at h
    rw [if_neg hm] at h
    exact absurd h (by simp)

/-- Witness for C9 at a concrete input. -/
theorem c9_witness :
    mutual_reachability_graph_GF bfknnEmpty sym0 csr0 10
        DistanceType.L2SqrtExpanded 0 5 1 =
      .ok (⟨64, 64, 64⟩, [], [], ⟨[], [], []⟩) ∧
    (mrg_pre_GF bfknnEmpty sym0 0).rows.length =
      (mrg_pre_GF bfknnEmpty sym0 0).cols.length ∧
    (mrg_pre_GF bfknnEmpty sym0 0).cols.length =
      (mrg_pre_GF bfknnEmpty sym0 0).vals.length ∧
    (mutual_reachability_graph_GF bfknnEmpty sym0 csr0 10
        DistanceType.L2SqrtExpanded 0 5 2 =
      .ok (⟨64, 64, 64⟩, [], [], ⟨[], [], []⟩) ∧
      (COO.mk [] [] []).rows = (mrg_pre_GF bfknnEmpty sym0 0).rows ∧
      (COO.mk [] [] []).cols = (mrg_pre_GF bfknnEmpty sym0 0).cols ∧
      (∀ e, e < (COO.mk [] [] []).rows.length →
        (COO.mk [] [] []).rows.getD e 0 ≠ (COO.mk [] [] []).cols.getD e 0 →
        (COO.mk [] [] []).vals.getD e 0 =
          (mrg_pre_GF bfknnEmpty sym0 0).vals.getD e 0)) :=
  ⟨by rfl, by rfl, by rfl,
    c9_GF_raw_distances_alpha_unused bfknnEmpty sym0 csr0 10
      DistanceType.L2SqrtExpanded 0 5 1 2 ⟨64, 64, 64⟩ [] []
      ⟨[], [], []⟩ (by rfl) (by rfl) (by rfl)⟩

/-- C2: in both `mutual_reachability_graph` and
`mutual_reachability_graph_GF`, the final self-loop pass gives every edge
with `rows[e] = cols[e]` the maximum finite representable weight `vmax`,
and every edge with `rows[e] ≠ cols[e]` keeps the weight it had before the
pass (the value produced by symmetrization). -/
theorem c2_selfloop_weights :
    (∀ (bfknn : Int → List Int × List ℚ)
      (mr_knn_l2 : List Int → List ℚ → List ℚ → ℚ → List ℚ)
      (symmetrize : List Int → List Int → List ℚ → COO)
      (sorted_coo_to_csr : List Int → Nat → List Int)
      (vmax : ℚ) (metric : DistanceType) (m : Nat) (min_samples : Int)
      (alpha : ℚ) (ip : List Int) (cd : List ℚ) (g : COO),
      mutual_reachability_graph bfknn mr_knn_l2 symmetrize sorted_coo_to_csr
          vmax metric m min_samples alpha = .ok (ip, cd, g) →
      (mrg_pre bfknn mr_knn_l2 symmetrize m min_samples alpha).rows.length =
        (mrg_pre bfknn mr_knn_l2 symmetrize m min_samples alpha).cols.length →
      (mrg_pre bfknn mr_knn_l2 symmetrize m min_samples alpha).cols.length =
        (mrg_pre bfknn mr_knn_l2 symmetrize m min_samples alpha).vals.length →
      ∀ e, e < g.rows.length →
        (g.rows.getD e 0 = g.cols.getD e 0 → g.vals.getD e 0 = vmax) ∧
        (g.rows.getD e 0 ≠ g.cols.getD e 0 → g.vals.getD e 0 =
          (mrg_pre bfknn mr_knn_l2 symmetrize m min_samples
            alpha).vals.getD e 0)) ∧
    (∀ (knnGF : Int → List Int × List ℚ)
      (symmetrize : List Int → List Int → List ℚ → COO)
      (sorted_coo_to_csr : List Int → Nat → List Int)
      (vmax : ℚ) (metric : DistanceType) (m : Nat) (min_samples : Int)
      (alpha : ℚ) (tr : GFTrace) (ip : List Int) (cd : List ℚ) (g : COO),
      mutual_reachability_graph_GF knnGF symmetrize sorted_coo_to_csr
          vmax metric m min_samples alpha = .ok (tr, ip, cd, g) →
      (mrg_pre_GF knnGF symmetrize m).rows.length =
        (mrg_pre_GF knnGF symmetrize m).cols.length →
      (mrg_pre_GF knnGF symmetrize m).cols.length =
        (mrg_pre_GF knnGF symmetrize m).vals.length →
      ∀ e, e < g.rows.length →
        (g.rows.getD e 0 = g.cols.getD e 0 → g.vals.getD e 0 = vmax) ∧
        (g.rows.getD e 0 ≠ g.cols.getD e 0 → g.vals.getD e 0 =
          (mrg_pre_GF knnGF symmetrize m).vals.getD e 0)) := by
  constructor
  · intro bfknn mrl2 sym csr vmax metric m ms alpha ip cd g h h1 h2
    by_cases hm : metric = DistanceType.L2SqrtExpanded
    · subst hm
      rw [mutual_reachability_graph_eq_ok] at h
      have hg : g = ⟨(mrg_pre bfknn mrl2 sym m ms alpha).rows,
          (mrg_pre bfknn mrl2 sym m ms alpha).cols,
          selfLoopPass vmax (mrg_pre bfknn mrl2 sym m ms alpha).rows
            (mrg_pre bfknn mrl2 sym m ms alpha).cols
            (mrg_pre bfknn mrl2 sym m ms alpha).vals⟩ := by
        simp only [Except.ok.injEq, Prod.mk.injEq] at h
        exact h.2.2.symm
      intro e he
      rw [hg] at he ⊢
      constructor
      · intro heq
        rw [selfLoopPass_getD vmax _ _ _ e h1 h2 he, if_pos heq]
      · intro hne
        rw [selfLoopPass_getD vmax _ _ _ e h1 h2 he, if_neg hne]
    · unfold mutual_reachability_graph at h
      rw [if_neg hm] at h
      exact absurd h (by simp)
  · intro knnGF sym csr vmax metric m ms alpha tr ip cd g h h1 h2
    by_cases hm : metric = DistanceType.L2SqrtExpanded
    · subst hm
      rw [mutual_reachability_graph_GF_eq_ok] at h
      have hg : g = ⟨(mrg_pre_GF knnGF sym m).rows,
          (mrg_pre_GF knnGF sym m).cols,
          selfLoopPass vmax (mrg_pre_GF knnGF sym m).rows
            (mrg_pre_GF knnGF sym m).cols
            (mrg_pre_GF knnGF sym m).vals⟩ := by
        simp only [Except.ok.injEq, Prod.mk.injEq] at h
        exact h.2.2.2.symm
      intro e he
      rw [hg] at he ⊢
      constructor
      · intro heq
        rw [selfLoopPass_getD vmax _ _ _ e h1 h2 he, if_pos heq]
      · intro hne
        rw [selfLoopPass_getD vmax _ _ _ e h1 h2 he, if_neg hne]
    · unfold mutual_reachability_graph_GF at h
      rw [if_neg hm] at h
      exact absurd h (by simp)

/-- Witness for C2 at concrete inputs exercising both variants. -/
theorem c2_witness :
    mutual_reachability_graph bfknn0 mrl20 sym0 csr0 10
        DistanceType.L2SqrtExpanded 1 1 1 =
      .ok ([], [1], ⟨[0], [0], [10]⟩) ∧
    (mrg_pre bfknn0 mrl20 sym0 1 1 1).rows.length =
      (mrg_pre bfknn0 mrl20 sym0 1 1 1).cols.length ∧
    (mrg_pre bfknn0 mrl20 sym0 1 1 1).cols.length =
      (mrg_pre bfknn0 mrl20 sym0 1 1 1).vals.length ∧
    (∀ e, e < (COO.mk [0] [0] [10]).rows.length →
      ((COO.mk [0] [0] [10]).rows.getD e 0 =
          (COO.mk [0] [0] [10]).cols.getD e 0 →
        (COO.mk [0] [0] [10]).vals.getD e 0 = 10) ∧
      ((COO.mk [0] [0] [10]).rows.getD e 0 ≠
          (COO.mk [0] [0] [10]).cols.getD e 0 →
        (COO.mk [0] [0] [10]).vals.getD e 0 =
          (mrg_pre bfknn0 mrl20 sym0 1 1 1).vals.getD e 0)) ∧
    (∀ e, e < (COO.mk [] [] [] : COO).rows.length →
      ((COO.mk [] [] [] : COO).rows.getD e 0 =
          (COO.mk [] [] [] : COO).cols.getD e 0 →
        (COO.mk [] [] [] : COO).vals.getD e 0 = 10) ∧
      ((COO.mk [] [] [] : COO).rows.getD e 0 ≠
          (COO.mk [] [] [] : COO).cols.getD e 0 →
        (COO.mk [] [] [] : COO).vals.getD e 0 =
          (mrg_pre_GF bfknnEmpty sym0 0).vals.getD e 0)) :=
  ⟨by rfl, by rfl, by rfl,
    c2_selfloop_weights.1 bfknn0 mrl20 sym0 csr0 10
      DistanceType.L2SqrtExpanded 1 1 1 [] [1] ⟨[0], [0], [10]⟩
      (by rfl) (by rfl) (by rfl),
    c2_selfloop_weights.2 bfknnEmpty sym0 csr0 10
      DistanceType.L2SqrtExpanded 0 5 1 ⟨64, 64, 64⟩ [] [] ⟨[], [], []⟩
      (by rfl) (by rfl) (by rfl)⟩

end Reachability
